import Mathlib

/-!
Verification of `src/lightning_hpo/app/ui/src/hooks/useClientDataState.tsx`.

The file under verification is a React hook module: `ClientDataProvider`
mounts an effect that immediately calls `post()` (one fetch), then calls
`setInterval(post, 1000)`, and on cleanup calls `clearInterval`.  Each
`post()` invokes `clientEndpoints[props.endpoint](appClient)`; on success the
promise continuation dispatches the data to a reducer
`(state, newValue) => newValue` (initial state `[]`), on failure it enqueues a
fixed snackbar notification.  `useClientDataState` reads the context value.

Two complementary shallow embeddings of this code are developed below:

* a timing model (`PollSession`, `ticksFired`, `fetchesIssued`) for the
  dispatch times of `post()` induced by the immediate call and by
  `setInterval`/`clearInterval` on an integer millisecond clock; and
* an event-loop model (`ProviderState`, `Event`, `step`, `run`) for the
  mounted provider: interval ticks, promise resolutions and rejections,
  parent re-renders that change the `endpoint` prop, and the effect cleanup.

Item records are opaque (`any[]` in the source), so both models are
parametric in the item type `α`.
-/

namespace ClientDataState

/-- The closed set of endpoint keys: the keys of the `clientEndpoints`
object literal (`keyof typeof clientEndpoints`). -/
inductive EndpointKey
  | sweeps
  | notebooks
  | tensorboards
  deriving DecidableEq, Repr, Fintype

/-- The three generated-client methods that the `clientEndpoints` table can
invoke; opaque remote calls, identified by name. -/
inductive RemoteCall
  | showSweepsCommandShowSweepsPost
  | showNotebooksCommandShowNotebooksPost
  | showTensorboardsCommandShowTensorboardsPost
  deriving DecidableEq, Repr

/-- A snapshot: an ordered sequence of opaque item records (`any[]`). -/
abbrev Snapshot (α : Type) := List α

/-- Source lines 12 to 16: the `clientEndpoints` table seen as a total
function, the semantics of property access `clientEndpoints[props.endpoint]`
with the key statically typed as `keyof typeof clientEndpoints`. -/
def clientEndpoints : EndpointKey → RemoteCall
  | .sweeps => .showSweepsCommandShowSweepsPost
  | .notebooks => .showNotebooksCommandShowNotebooksPost
  | .tensorboards => .showTensorboardsCommandShowTensorboardsPost

/-- Source lines 12 to 16: the `clientEndpoints` object literal itself, as
the association list of its three properties in source order. -/
def clientEndpointsTable : List (EndpointKey × RemoteCall) :=
  [(.sweeps, .showSweepsCommandShowSweepsPost),
   (.notebooks, .showNotebooksCommandShowNotebooksPost),
   (.tensorboards, .showTensorboardsCommandShowTensorboardsPost)]

/-- A React context as far as this module observes it: its default value,
the value `useContext` returns when no provider is mounted above. -/
structure ReactContext (α : Type) where
  defaultValue : Snapshot α
  deriving DecidableEq, Repr

/-- Source lines 18 to 22: the `clientDataContexts` table as a total
function; each of the three contexts is created with default value `[]`. -/
def clientDataContexts (α : Type) : EndpointKey → ReactContext α
  | .sweeps => ⟨[]⟩
  | .notebooks => ⟨[]⟩
  | .tensorboards => ⟨[]⟩

/-- Source lines 18 to 22: the `clientDataContexts` object literal as the
association list of its three properties in source order. -/
def clientDataContextsTable (α : Type) : List (EndpointKey × ReactContext α) :=
  [(.sweeps, ⟨[]⟩), (.notebooks, ⟨[]⟩), (.tensorboards, ⟨[]⟩)]

/-- A snackbar notification, the argument shape of `enqueueSnackbar`. -/
structure Notification where
  title : String
  children : String
  severity : String
  deriving DecidableEq, Repr

/-- Source lines 33 to 37: the one notification the catch handler enqueues;
its content is a fixed literal, independent of the caught error. -/
def fetchErrorSnackbar : Notification :=
  ⟨"Error Fetching Data", "Try reloading the page", "error"⟩

/-- Source line 25: the reducer `(state, newValue) => newValue`. -/
def reducer {α : Type} (_state : Snapshot α) (newValue : Snapshot α) :
    Snapshot α :=
  newValue

/-! ## Timing model of `post()` dispatches

Source lines 41 to 47: `post()` runs once synchronously when the effect
mounts, `setInterval(post, 1000)` then fires at 1000, 2000, ... milliseconds
after registration, and `clearInterval` stops every firing that has not yet
happened.  A `PollSession` records the mount time and, if the cleanup has
run, the stop time; `fetchesIssued` counts the `post()` calls the session
has made by a given time. -/

/-- One poll session: the effect instance of one mounted
`ClientDataProvider`.  `stopTime = none` means the cleanup has not run. -/
structure PollSession where
  endpoint : EndpointKey
  startTime : Nat
  stopTime : Option Nat
  deriving DecidableEq, Repr

/-- Number of `setInterval` ticks the session has fired by time `t`
(inclusive): ticks are scheduled at `startTime + 1000 * k` for `k ≥ 1`, and
a tick fires only if it is due by `t` and strictly before the stop time. -/
def ticksFired (s : PollSession) (t : Nat) : Nat :=
  let fireEnd :=
    match s.stopTime with
    | none => t
    | some stp => min t (stp - 1)
  if fireEnd < s.startTime then 0 else (fireEnd - s.startTime) / 1000

/-- Number of `post()` calls the session has issued by time `t` (inclusive):
the immediate call at mount plus the interval ticks fired so far. -/
def fetchesIssued (s : PollSession) (t : Nat) : Nat :=
  if t < s.startTime then 0 else 1 + ticksFired s t

/-- Total number of `post()` calls for endpoint key `k` across a collection
of sessions by time `t`: each session fetches independently. -/
def fetchCallsFor (k : EndpointKey) (sessions : List PollSession) (t : Nat) :
    Nat :=
  ((sessions.filter fun s => s.endpoint = k).map fun s => fetchesIssued s t).sum

/-! ## Event-loop model of the mounted provider

Source lines 24 to 52.  The state of one mounted `ClientDataProvider` and
the events its event loop can process.  The `post` closure is created inside
the effect, whose dependency array is `[]`, so it captures the `props`
object of the first render: `sessionEndpoint` is that captured endpoint,
while `currentProp` is the endpoint prop of the latest render. -/

/-- The live state of one mounted `ClientDataProvider`. -/
structure ProviderState (α : Type) where
  sessionEndpoint : EndpointKey
  currentProp : EndpointKey
  intervalActive : Bool
  dispatched : Nat
  reducerState : Snapshot α
  snackbars : List Notification
  deriving DecidableEq, Repr

/-- Events the provider reacts to.  Fetches are numbered in dispatch order;
`resolve i data` (resp. `reject i e`) is the continuation of promise `i`
running, in whatever completion order the environment chooses.  `setProp k`
is a parent re-render with a new `endpoint` prop; `cleanup` is the effect
cleanup (`clearInterval`). -/
inductive Event (α : Type)
  | tick
  | resolve (i : Nat) (data : Snapshot α)
  | reject (i : Nat) (e : Nat)
  | setProp (k : EndpointKey)
  | cleanup
  deriving DecidableEq, Repr

/-- Whether an event is a successful fetch resolution. -/
def Event.isResolve {α : Type} : Event α → Bool
  | .resolve _ _ => true
  | _ => false

/-- Mounting the provider for endpoint `k`: the reducer starts at `[]`
(line 25), the effect runs `post()` once immediately (line 41), and the
interval is registered (line 43). -/
def mount (α : Type) (k : EndpointKey) : ProviderState α :=
  { sessionEndpoint := k
    currentProp := k
    intervalActive := true
    dispatched := 1
    reducerState := []
    snackbars := [] }

/-- One event-loop step of the mounted provider, straight from the source:

* `tick` runs `post()` — but only while the interval has not been cleared;
* `resolve i data` runs `.then(data => dispatch(data))` of an already
  dispatched fetch: the reducer replaces the state with `data`
  unconditionally, with no liveness or mountedness check in the source;
* `reject i e` runs the catch handler: it ignores `e` and enqueues the
  fixed `fetchErrorSnackbar`, leaving the reducer state untouched;
* `setProp k` re-renders with a new `endpoint` prop: only the current prop
  changes, the effect (dependency array `[]`) is neither re-run nor cleaned;
* `cleanup` runs `clearInterval(interval)` and nothing else. -/
def step {α : Type} (st : ProviderState α) : Event α → ProviderState α
  | .tick =>
      if st.intervalActive then { st with dispatched := st.dispatched + 1 }
      else st
  | .resolve i data =>
      if i < st.dispatched then
        { st with reducerState := reducer st.reducerState data }
      else st
  | .reject i _e =>
      if i < st.dispatched then
        { st with snackbars := st.snackbars ++ [fetchErrorSnackbar] }
      else st
  | .setProp k => { st with currentProp := k }
  | .cleanup => { st with intervalActive := false }

/-- Running the provider: mount for endpoint `k`, then process the events
of the trace in order. -/
def run (α : Type) (k : EndpointKey) (es : List (Event α)) : ProviderState α :=
  es.foldl step (mount α k)

/-- Source lines 54 to 58: `useClientDataState` reads the context for the
key; `useContext` yields the provided value when a provider is mounted
above, and the context default value otherwise. -/
def useClientDataState (α : Type) (k : EndpointKey)
    (provided : Option (Snapshot α)) : Snapshot α :=
  match provided with
  | some v => v
  | none => (clientDataContexts α k).defaultValue

/-! ## General lemmas about the event-loop model -/

/-- The captured session endpoint is never changed by any event. -/
theorem foldl_step_sessionEndpoint {α : Type} (es : List (Event α))
    (st : ProviderState α) :
    (es.foldl step st).sessionEndpoint = st.sessionEndpoint := by
  induction es generalizing st with
  | nil => rfl
  | cons e es ih =>
    rw [List.foldl_cons, ih]
    cases e with
    | tick => by_cases h : st.intervalActive <;> simp [step, h]
    | resolve i data => by_cases h : i < st.dispatched <;> simp [step, h]
    | reject i e => by_cases h : i < st.dispatched <;> simp [step, h]
    | setProp k => rfl
    | cleanup => rfl

/-- A trace with no successful resolution never changes the reducer state. -/
theorem foldl_step_reducerState_of_no_resolve {α : Type}
    (es : List (Event α)) (hes : ∀ ev ∈ es, ev.isResolve = false)
    (st : ProviderState α) :
    (es.foldl step st).reducerState = st.reducerState := by
  induction es generalizing st with
  | nil => rfl
  | cons e es ih =>
    have he : Event.isResolve e = false := hes e (List.mem_cons_self e es)
    have hes' : ∀ ev ∈ es, Event.isResolve ev = false := fun ev h =>
      hes ev (List.mem_cons_of_mem e h)
    rw [List.foldl_cons, ih hes']
    cases e with
    | tick => by_cases h : st.intervalActive <;> simp [step, h]
    | resolve i data => simp [Event.isResolve] at he
    | reject i e => by_cases h : i < st.dispatched <;> simp [step, h]
    | setProp k => rfl
    | cleanup => rfl

/-! ## Claim theorems -/

/-- Claim C1: for every poll session that has not been stopped, starting the
session issues exactly one fetch immediately, before any scheduled tick
(exactly one `post()` call while `t < startTime + 1000`), and thereafter one
further fetch per elapsed 1000 ms period: by any time `t` past the mount,
the fetch count is `1 + (t - startTime) / 1000`. -/
theorem beginPolling_one_immediate_fetch_then_1000ms_period
    (s : PollSession) (hs : s.stopTime = none) (t : Nat)
    (ht : s.startTime ≤ t) :
    fetchesIssued s t = 1 + (t - s.startTime) / 1000 ∧
    (t < s.startTime + 1000 → fetchesIssued s t = 1) := by
  have hge : ¬ t < s.startTime := Nat.not_lt.mpr ht
  constructor
  · simp [fetchesIssued, ticksFired, hs, hge]
  · intro hlt
    have hsub : (t - s.startTime) / 1000 = 0 := Nat.div_eq_of_lt (by omega)
    simp [fetchesIssued, ticksFired, hs, hge, hsub]

/-- Witness for C1: a session mounted at time 0 has issued exactly one fetch
at time 999, just before the first scheduled tick. -/
theorem beginPolling_one_immediate_fetch_then_1000ms_period_witness :
    fetchesIssued ⟨EndpointKey.sweeps, 0, none⟩ 999 = 1 :=
  (beginPolling_one_immediate_fetch_then_1000ms_period
      ⟨EndpointKey.sweeps, 0, none⟩ rfl 999 (by decide)).2 (by decide)

/-- Claim C3: once the disposer has run (the cleanup called `clearInterval`
at time `stp`), the fetch count is frozen: at every later time it equals the
count at stop time, so zero further fetches are issued no matter how far
time advances. -/
theorem disposer_stops_all_further_fetches (s : PollSession) (stp : Nat)
    (hs : s.stopTime = some stp) (hle : s.startTime ≤ stp) (t : Nat)
    (ht : stp ≤ t) :
    fetchesIssued s t = fetchesIssued s stp := by
  have h1 : min t (stp - 1) = stp - 1 := by omega
  have h2 : min stp (stp - 1) = stp - 1 := by omega
  have h3 : ¬ t < s.startTime := by omega
  have h4 : ¬ stp < s.startTime := by omega
  simp [fetchesIssued, ticksFired, hs, h1, h2, h3, h4]

/-- Witness for C3: a session mounted at 0 and stopped at 2500 has the same
fetch count at time 1000000 as at time 2500. -/
theorem disposer_stops_all_further_fetches_witness :
    fetchesIssued ⟨EndpointKey.sweeps, 0, some 2500⟩ 1000000 =
      fetchesIssued ⟨EndpointKey.sweeps, 0, some 2500⟩ 2500 :=
  disposer_stops_all_further_fetches ⟨EndpointKey.sweeps, 0, some 2500⟩ 2500
    rfl (by decide) 1000000 (by decide)

/-- Claim C7: for every endpoint key `k`, two sessions started at `t = 0`
for `k` are not deduplicated: already at `t = 0` two immediate fetches have
been issued (one each), still two at `t = 999`, and at `t = 1000` each
session has also fired its own first interval tick, for 4 fetches total. -/
theorem two_sessions_not_deduplicated (k : EndpointKey) :
    fetchCallsFor k [⟨k, 0, none⟩, ⟨k, 0, none⟩] 0 = 2 ∧
    fetchCallsFor k [⟨k, 0, none⟩, ⟨k, 0, none⟩] 999 = 2 ∧
    fetchCallsFor k [⟨k, 0, none⟩, ⟨k, 0, none⟩] 1000 = 4 := by
  cases k <;> decide

/-- Claim C2 counterexample: the claim asserts that a resolution arriving
after the session was stopped leaves the snapshot unchanged, the publish
step being guarded by a liveness check.  In the source there is no such
guard: mount sweeps (fetch 0 dispatched), run the cleanup, then let fetch 0
resolve with `[5]` — the reducer state becomes `[5]`, different from the
reducer state right after the cleanup alone (`[]`). -/
theorem post_stop_resolution_changes_snapshot :
    (run Nat EndpointKey.sweeps [.cleanup, .resolve 0 [5]]).reducerState ≠
      (run Nat EndpointKey.sweeps [.cleanup]).reducerState := by
  decide

/-- Claim C2 as amended: the cleanup cancels only the interval, so after
stop a tick dispatches no new fetch, but the publish step has no liveness
check: a fetch dispatched before the stop that resolves afterwards still has
its result dispatched to the reducer, replacing the snapshot. -/
theorem post_stop_resolution_still_published {α : Type}
    (st : ProviderState α) (i : Nat) (d : Snapshot α)
    (hstop : st.intervalActive = false) (hi : i < st.dispatched) :
    (step st (.resolve i d)).reducerState = d ∧
    (step st Event.tick).dispatched = st.dispatched := by
  constructor
  · simp [step, hi, reducer]
  · simp [step, hstop]

/-- Witness for the amended C2: mount sweeps, clean up, then resolve the
fetch dispatched at mount with `[9]`; the reducer state is replaced by `[9]`
while ticks no longer dispatch. -/
theorem post_stop_resolution_still_published_witness :
    (step (step (mount Nat EndpointKey.sweeps) Event.cleanup)
        (.resolve 0 [9])).reducerState = [9] ∧
    (step (step (mount Nat EndpointKey.sweeps) Event.cleanup)
        Event.tick).dispatched =
      (step (mount Nat EndpointKey.sweeps) Event.cleanup).dispatched :=
  post_stop_resolution_still_published
    (step (mount Nat EndpointKey.sweeps) Event.cleanup) 0 [9] (by decide)
    (by decide)

/-- Claim C4: when a dispatched fetch rejects with error `e`, the reducer
state is unchanged, exactly one snackbar is appended and it is the fixed
one with severity "error", and the resulting state is identical for every
error value (the catch handler never inspects `e`); no error escapes: the
step is a total function into states. -/
theorem fetch_failure_contained {α : Type} (st : ProviderState α)
    (i e : Nat) (hi : i < st.dispatched) :
    (step st (.reject i e)).reducerState = st.reducerState ∧
    (step st (.reject i e)).snackbars = st.snackbars ++ [fetchErrorSnackbar] ∧
    fetchErrorSnackbar.severity = "error" ∧
    (∀ eAlt : Nat, step st (.reject i e) = step st (.reject i eAlt)) := by
  refine ⟨?_, ?_, rfl, fun eAlt => rfl⟩ <;> simp [step, hi]

/-- Witness for C4: the fetch dispatched at mount rejects with error 7. -/
theorem fetch_failure_contained_witness :
    (step (mount Nat EndpointKey.sweeps) (.reject 0 7)).reducerState =
        (mount Nat EndpointKey.sweeps).reducerState ∧
    (step (mount Nat EndpointKey.sweeps) (.reject 0 7)).snackbars =
        (mount Nat EndpointKey.sweeps).snackbars ++ [fetchErrorSnackbar] ∧
    fetchErrorSnackbar.severity = "error" ∧
    (∀ eAlt : Nat,
      step (mount Nat EndpointKey.sweeps) (.reject 0 7) =
        step (mount Nat EndpointKey.sweeps) (.reject 0 eAlt)) :=
  fetch_failure_contained (mount Nat EndpointKey.sweeps) 0 7 (by decide)

/-- Claim C5: when a dispatched fetch resolves with sequence `d`, the
reducer state after the dispatch is exactly `d`, whatever the previous state
was: a full replacement, never a merge. -/
theorem fetch_success_full_replacement {α : Type} (st : ProviderState α)
    (i : Nat) (d : Snapshot α) (hi : i < st.dispatched) :
    (step st (.resolve i d)).reducerState = d := by
  simp [step, hi, reducer]

/-- Witness for C5: the fetch dispatched at mount resolves with `[7, 8]`. -/
theorem fetch_success_full_replacement_witness :
    (step (mount Nat EndpointKey.sweeps) (.resolve 0 [7, 8])).reducerState =
      [7, 8] :=
  fetch_success_full_replacement (mount Nat EndpointKey.sweeps) 0 [7, 8]
    (by decide)

/-- Claim C6: whichever dispatched fetch resolves last determines the
published snapshot, regardless of dispatch order: after an arbitrary history
`es` (any dispatches and completions in any order), a resolution of any
dispatched fetch `i` with data `d`, followed by any tail of events
containing no further resolution, leaves the reducer state at `d`. -/
theorem overlapping_fetches_last_completion_wins {α : Type}
    (k : EndpointKey) (es ts : List (Event α)) (i : Nat) (d : Snapshot α)
    (hi : i < (run α k es).dispatched)
    (hts : ∀ ev ∈ ts, ev.isResolve = false) :
    (ts.foldl step (step (run α k es) (.resolve i d))).reducerState = d := by
  rw [foldl_step_reducerState_of_no_resolve ts hts]
  simp [step, hi, reducer]

/-- Witness for C6, the scenario of the spec: fetch 0 is dispatched at
mount, a tick dispatches fetch 1 while fetch 0 is still in flight, fetch 1
resolves first with `[1]`, and fetch 0 — dispatched earlier — resolves last
with `[2]`: the snapshot is `[2]`, by completion order. -/
theorem overlapping_fetches_last_completion_wins_witness :
    (([] : List (Event Nat)).foldl step
        (step (run Nat EndpointKey.sweeps [.tick, .resolve 1 [1]])
          (.resolve 0 [2]))).reducerState = [2] :=
  overlapping_fetches_last_completion_wins EndpointKey.sweeps
    [.tick, .resolve 1 [1]] [] 0 [2] (by decide) (by simp)

/-- Claim C8: before any successful fetch has completed, the snapshot reads
as the empty sequence: the reducer state after any resolution-free trace is
`[]`, the reducer initial state is `[]`, every context default value is
`[]`, and `useClientDataState` outside any provider returns `[]`. -/
theorem snapshot_empty_before_first_fetch {α : Type} (k : EndpointKey)
    (es : List (Event α)) (hes : ∀ ev ∈ es, ev.isResolve = false) :
    (run α k es).reducerState = [] ∧
    (mount α k).reducerState = [] ∧
    (clientDataContexts α k).defaultValue = [] ∧
    useClientDataState α k none = [] := by
  refine ⟨?_, rfl, ?_, ?_⟩
  · rw [run, foldl_step_reducerState_of_no_resolve es hes]
    rfl
  · cases k <;> rfl
  · cases k <;> rfl

/-- Witness for C8: a trace with a tick and a rejection, but no successful
resolution, for the sweeps endpoint. -/
theorem snapshot_empty_before_first_fetch_witness :
    (run Nat EndpointKey.sweeps [.tick, .reject 0 3]).reducerState = [] ∧
    (mount Nat EndpointKey.sweeps).reducerState = [] ∧
    (clientDataContexts Nat EndpointKey.sweeps).defaultValue = [] ∧
    useClientDataState Nat EndpointKey.sweeps none = [] :=
  snapshot_empty_before_first_fetch EndpointKey.sweeps [.tick, .reject 0 3]
    (by decide)

/-- Claim C9: the endpoint registry invariant.  The keys of the fetch table
are exactly sweeps, notebooks, tensorboards in order; the context table has
exactly the same keys; each key occurs exactly once in each table; and the
tables agree with the total lookup functions the provider uses (both are
fixed definitions, so the mapping cannot change after construction). -/
theorem endpoint_registry_invariant :
    clientEndpointsTable.map Prod.fst =
      [EndpointKey.sweeps, EndpointKey.notebooks, EndpointKey.tensorboards] ∧
    (∀ α : Type, (clientDataContextsTable α).map Prod.fst =
      clientEndpointsTable.map Prod.fst) ∧
    (∀ k : EndpointKey, (clientEndpointsTable.map Prod.fst).count k = 1) ∧
    (∀ α : Type, ∀ k : EndpointKey,
      ((clientDataContextsTable α).map Prod.fst).count k = 1) ∧
    (∀ k : EndpointKey,
      clientEndpointsTable.lookup k = some (clientEndpoints k)) ∧
    (∀ α : Type, ∀ k : EndpointKey,
      (clientDataContextsTable α).lookup k = some (clientDataContexts α k)) := by
  refine ⟨rfl, fun α => rfl, by decide, fun α k => ?_, by decide,
    fun α k => ?_⟩ <;> cases k <;> rfl

/-- Claim C10: the endpoint a session polls is fixed at mount.  After any
trace of events — in particular parent re-renders changing the `endpoint`
prop — the captured session endpoint and hence the remote call `post()`
makes are those of the mount; and a prop change alters only `currentProp`,
leaving the session endpoint, the interval, the dispatch count and the
reducer state untouched. -/
theorem session_endpoint_fixed_at_mount {α : Type} (k : EndpointKey)
    (es : List (Event α)) :
    (run α k es).sessionEndpoint = k ∧
    clientEndpoints (run α k es).sessionEndpoint = clientEndpoints k ∧
    (∀ st : ProviderState α, ∀ kNew : EndpointKey,
      step st (.setProp kNew) = { st with currentProp := kNew }) := by
  have h : (run α k es).sessionEndpoint = k := by
    rw [run, foldl_step_sessionEndpoint]
    rfl
  exact ⟨h, by rw [h], fun st kNew => rfl⟩

end ClientDataState
